import Mathlib

/-!
Verification of the album-discovery engine of `src/telegram-bot/src/navidrome_client.py`.

The engine is shallowly embedded: the server is a function from pagination
offsets to page results, Python exceptions become `Except`, the unbounded
full-library loop is given explicit fuel, and the on-disk cache is explicit
state.  Instants (Unix-style timestamps) are integers.
-/

set_option maxRecDepth 8000

namespace Alpargatify

/-- A release-date value as found in an album record: either a scalar string
(e.g. a partial ISO date) or a structured year/month/day mapping
(a JSON object, i.e. a Python dict). -/
inductive ReleaseVal where
  | s (v : String)
  | ymd (y m d : Int)
deriving DecidableEq

/-- The fields of an album record that the engine reads.  `none` models a key
that is absent from the record (Python `k in album` is `false`); `some` models
a present key, whose value may still be empty/falsy. -/
structure Album where
  name : String
  created : Option String
  releaseDate : Option ReleaseVal
  date : Option ReleaseVal
  originalDate : Option ReleaseVal
deriving DecidableEq

/-- Outcome of one `_request('getAlbumList', ...)` call, as seen by the
pagination loops (navidrome_client.py lines 31-57):
`transportFail` is a `requests.exceptions.RequestException` (the method
returns `None`); `apiError` is an envelope with status `failed` (the method
raises); `noList` is a successful envelope without an `albumList` key;
`page` is a successful envelope carrying a (possibly empty) album list. -/
inductive PageResult where
  | transportFail
  | apiError
  | noList
  | page (albums : List Album)
deriving DecidableEq

/-- Which of the four `break` sites of `get_new_albums` ended the loop.
`safetyCap` is the only branch that logs the `fetched over 10000 items`
warning (line 129), distinct from the normal-termination branches. -/
inductive StopReason where
  | noPage
  | emptyPage
  | earlyStop
  | safetyCap
deriving DecidableEq

/-- Python `len(...)` of a string. -/
def strLen (s : String) : Nat := s.data.length

/-- Python slicing `s[:n]`. -/
def strTake (s : String) (n : Nat) : String := ⟨s.data.take n⟩

/-- Python `created_str.endswith('Z')`. -/
def endsWithZ (s : String) : Bool := s.data.getLast? = some 'Z'

/-- The zone-marker normalization of `get_new_albums`
(lines 89-90 and 117): `created_str[:-1] + '+00:00'` when the string ends
in `Z`, otherwise the string unchanged. -/
def normZ (s : String) : String :=
  if endsWithZ s then ⟨s.data.dropLast⟩ ++ "+00:00" else s

/-- The creation-timestamp handling shared by the window filter
(lines 87-96) and the early-stop check (lines 115-119): a missing `created`
key or an empty string is skipped, a trailing `Z` is normalized, then
`datetime.datetime.fromisoformat` (followed by the UTC default for naive
results) turns the string into an instant.  `fromisoformat` composed with the
timezone normalization is Python standard-library behaviour, not repository
code, and is modelled by the abstract instant-valued parameter `parse`
(`none` models `ValueError`). -/
def parsedCreated (parse : String → Option Int) (a : Album) : Option Int :=
  match a.created with
  | none => none
  | some s => if s = "" then none else parse (normZ s)

/-- The per-album window test of `get_new_albums` line 98:
the album is collected iff its creation instant parses and is strictly
greater than the cutoff. -/
def albumIsNew (parse : String → Option Int) (cutoff : Int) (a : Album) : Bool :=
  match parsedCreated parse a with
  | some t => cutoff < t
  | none => false

/-- The early-stop predicate of `get_new_albums` lines 111-124: look at the
last album of the batch; stop iff its creation instant parses and is strictly
less than the cutoff.  A missing/empty/unparseable timestamp does not stop. -/
def earlyStopHit (parse : String → Option Int) (cutoff : Int)
    (albums : List Album) : Bool :=
  match albums.getLast? with
  | none => false
  | some last =>
    match parsedCreated parse last with
    | some t => decide (t < cutoff)
    | none => false

/-- How one more pagination iteration wraps the rest of the loop's outcome:
a raised exception passes through unchanged (discarding everything), and a
normal outcome gets its request count incremented by the one request this
iteration issued. -/
def bump : Except Unit (List Album × StopReason × Nat) →
    Except Unit (List Album × StopReason × Nat)
  | .error _ => .error ()
  | .ok (l, r, n) => .ok (l, r, n + 1)

/-- Iterated `bump`. -/
def bumpN : Nat → Except Unit (List Album × StopReason × Nat) →
    Except Unit (List Album × StopReason × Nat)
  | 0, e => e
  | n + 1, e => bump (bumpN n e)

/-- The pagination loop of `get_new_albums` (lines 71-130).  `server` maps a
pagination offset to the outcome of `_request` at that offset; page size is
50.  The result carries the collected albums, the `break` site that ended the
loop, and the number of requests issued (instrumentation for the call-count
properties; not a value of the Python code).  An `apiError` raises, which
discards the collected albums (`Except.error`, applied by `bump`).
Termination is exactly the code's own safety cap: the loop only recurses
while `offset + 50 ≤ 10000`. -/
def getNewAlbumsLoop (parse : String → Option Int) (server : Nat → PageResult)
    (cutoff : Int) (offset : Nat) (acc : List Album) :
    Except Unit (List Album × StopReason × Nat) :=
  match server offset with
  | .apiError => .error ()
  | .transportFail => .ok (acc, .noPage, 1)
  | .noList => .ok (acc, .noPage, 1)
  | .page albums =>
    if albums.isEmpty then .ok (acc, .emptyPage, 1)
    else
      let acc2 := acc ++ albums.filter (albumIsNew parse cutoff)
      if earlyStopHit parse cutoff albums then .ok (acc2, .earlyStop, 1)
      else if _h : offset + 50 > 10000 then .ok (acc2, .safetyCap, 1)
      else bump (getNewAlbumsLoop parse server cutoff (offset + 50) acc2)
termination_by 10001 - offset
decreasing_by omega

/-- Python `get_new_albums(hours)` (lines 59-132): the cutoff is `now` minus the
window, and the loop starts at offset 0 with an empty accumulator. -/
def getNewAlbums (parse : String → Option Int) (server : Nat → PageResult)
    (now hours : Int) : Except Unit (List Album × StopReason × Nat) :=
  getNewAlbumsLoop parse server (now - hours * 3600) 0 []

/-- The pagination loop of `get_all_albums` (lines 134-157): page size 500,
no early stop and no offset cap, so the loop is given explicit fuel; `none`
means the fuel ran out with the traversal still running.  The `Nat` in the
result counts the requests issued. -/
def getAllAlbumsLoop (server : Nat → PageResult) (offset : Nat)
    (acc : List Album) : Nat → Option (Except Unit (List Album × Nat))
  | 0 => none
  | fuel + 1 =>
    match server offset with
    | .apiError => some (.error ())
    | .transportFail => some (.ok (acc, 1))
    | .noList => some (.ok (acc, 1))
    | .page albums =>
      if albums.isEmpty then some (.ok (acc, 1))
      else
        match getAllAlbumsLoop server (offset + 500) (acc ++ albums) fuel with
        | none => none
        | some (.error _) => some (.error ())
        | some (.ok (l, n)) => some (.ok (l, n + 1))

/-- Python `get_all_albums()` (lines 134-157), from offset 0. -/
def getAllAlbums (server : Nat → PageResult) (fuel : Nat) :
    Option (Except Unit (List Album × Nat)) :=
  getAllAlbumsLoop server 0 [] fuel

/-- A failure-free server backed by a finite page list: offset `o` is answered
with the page at index `o / size`; past the end the server answers with an
empty album list (as a real catalog endpoint does). -/
def serverOfPages (size : Nat) (pages : List (List Album)) :
    Nat → PageResult :=
  fun o =>
    match pages[o / size]? with
    | some p => .page p
    | none => .page []

/-- Python `str(release_date)` as used by `get_anniversary_albums` lines
208-209: a string stays itself; a year/month/day mapping (a dict parsed from
JSON) turns into its `repr`, `{'year': Y, 'month': M, 'day': D}`. -/
def pyStr : ReleaseVal → String
  | .s v => v
  | .ymd y m d =>
      "\x7b\x27year\x27: " ++ toString y ++ ", \x27month\x27: " ++ toString m
        ++ ", \x27day\x27: " ++ toString d ++ "\x7d"

/-- Python truthiness of a release-date value (`if release_date:` line 206):
an empty string is falsy, any mapping coming from a JSON object with the
year/month/day keys is nonempty and hence truthy. -/
def truthy : ReleaseVal → Bool
  | .s v => !(v = "")
  | .ymd _ _ _ => true

/-- Days in a month of the proleptic Gregorian calendar, as validated by
`datetime.date`. -/
def daysInMonth (y m : Int) : Int :=
  if m = 2 then
    if (y % 4 = 0 ∧ y % 100 ≠ 0) ∨ y % 400 = 0 then 29 else 28
  else if m = 4 ∨ m = 6 ∨ m = 9 ∨ m = 11 then 30 else 31

/-- Modelled Python-library behaviour: `datetime.datetime.fromisoformat`
applied to a 10-character prefix, i.e. the calendar-date form `YYYY-MM-DD`
with a valid Gregorian date and year at least 1 (`datetime.MINYEAR`); any
other shape raises `ValueError`, modelled as `none`. -/
def parseISODate10 (s : String) : Option (Int × Int × Int) :=
  match s.data with
  | [y1, y2, y3, y4, h1, m1, m2, h2, d1, d2] =>
    if y1.isDigit ∧ y2.isDigit ∧ y3.isDigit ∧ y4.isDigit ∧ h1 = '-'
        ∧ m1.isDigit ∧ m2.isDigit ∧ h2 = '-' ∧ d1.isDigit ∧ d2.isDigit then
      let y : Int := (y1.toNat - 48) * 1000 + (y2.toNat - 48) * 100
        + (y3.toNat - 48) * 10 + (y4.toNat - 48)
      let m : Int := (m1.toNat - 48) * 10 + (m2.toNat - 48)
      let d : Int := (d1.toNat - 48) * 10 + (d2.toNat - 48)
      if 1 ≤ y ∧ 1 ≤ m ∧ m ≤ 12 ∧ 1 ≤ d ∧ d ≤ daysInMonth y m then
        some (y, m, d)
      else none
    else none
  | _ => none

/-- The release-date resolution of `get_anniversary_albums` lines 199-204:
walk `['releaseDate', 'date', 'originalDate']` and take the value of the
first key that is PRESENT in the record (`if k in album`), regardless of
whether that value is empty. -/
def resolveReleaseDate (a : Album) : Option ReleaseVal :=
  match a.releaseDate with
  | some v => some v
  | none =>
    match a.date with
    | some v => some v
    | none => a.originalDate

/-- The per-album anniversary test of `get_anniversary_albums` lines 197-213:
resolve a release-date value; if it is truthy and its string form has at
least 10 characters, parse the first 10 characters as an ISO date and match
month and day against the query; every other outcome excludes the album. -/
def matchesAnniversary (day month : Int) (a : Album) : Bool :=
  match resolveReleaseDate a with
  | none => false
  | some v =>
    if truthy v then
      if 10 ≤ strLen (pyStr v) then
        match parseISODate10 (strTake (pyStr v) 10) with
        | some (_, m, d) => m = month ∧ d = day
        | none => false
      else false
    else false

/-- The on-disk cache file of `get_anniversary_albums`
(`/app/data/albums_cache.json`): its modification time and its contents;
`content = none` models a file whose read or JSON decode fails (the
`except` at line 184). -/
structure CacheFile where
  mtime : Int
  content : Option (List Album)
deriving DecidableEq

/-- The cache-load step of `get_anniversary_albums` (lines 170-185): with
`use_cache` set and an existing cache file that is younger than 23 hours and
decodes successfully, the loaded list; in every other case (no file, cache
disabled, expired, or a read/decode failure caught at line 184) the album
list stays empty. -/
def loadCache (now : Int) (useCache : Bool) (fs : Option CacheFile) :
    List Album :=
  match fs with
  | none => []
  | some cf =>
    if useCache then
      if now - cf.mtime < 23 * 3600 then
        match cf.content with
        | some l => l
        | none => []
      else []
    else []

/-- Python `get_anniversary_albums(day, month, use_cache)` (lines 159-215) as a
state-passing function.  The filesystem state is `Option CacheFile`
(`none` = no cache file).  The result is `none` when the full-library sync
runs out of fuel, otherwise the propagated exception or the matches, the new
filesystem state and the number of full-catalog requests issued (0 when the
query is answered from the snapshot).  Cache persistence (lines 190-195) is
modelled as succeeding; a failed write is logged and non-fatal in the code
and no claim concerns it. -/
def getAnniversaryAlbums (server : Nat → PageResult) (fuel : Nat) (now : Int)
    (day month : Int) (useCache : Bool) (fs : Option CacheFile) :
    Option (Except Unit (List Album × Option CacheFile × Nat)) :=
  let loaded : List Album := loadCache now useCache fs
  if loaded.isEmpty then
    match getAllAlbums server fuel with
    | none => none
    | some (.error _) => some (.error ())
    | some (.ok (albums, n)) =>
      some (.ok (albums.filter (matchesAnniversary day month),
        some ⟨now, some albums⟩, n))
  else
    some (.ok (loaded.filter (matchesAnniversary day month), fs, 0))

/-- An instant parser for concrete runs: `t0` is instant 0, `t100` is
instant 100, everything else fails to parse. -/
def tParse : String → Option Int :=
  fun s => if s = "t0" then some 0 else if s = "t100" then some 100 else none

/-- An album created at instant 0 (under `tParse`). -/
def albOld : Album := ⟨"old", some "t0", none, none, none⟩

/-- An album created at instant 100 (under `tParse`). -/
def albNew : Album := ⟨"new", some "t100", none, none, none⟩

/-- An album whose creation timestamp fails to parse (under `tParse`). -/
def albBad : Album := ⟨"bad", some "zz", none, none, none⟩

/-- An album with a scalar-string release date, born on 15 March. -/
def albAnniv : Album := ⟨"ann", none, some (.s "1994-03-15"), none, none⟩

/-- An album with the structured year/month/day release-date encoding of the
same date as `albAnniv`. -/
def albAnnivMap : Album := ⟨"annMap", none, some (.ymd 1994 3 15), none, none⟩

/-- An album whose `releaseDate` key is present but empty while its `date`
key holds a valid date. -/
def albEmptyFirst : Album := ⟨"ef", none, some (.s ""), some (.s "1994-03-15"), none⟩

/-- An album with a year-only release date (shorter than 10 characters). -/
def albShort : Album := ⟨"short", none, some (.s "1994"), none, none⟩

/-- A server that answers every offset with the same nonempty page. -/
def everFullServer : Nat → PageResult := fun _ => .page [albNew]

/-- A server whose every page is empty (an empty catalog). -/
def emptyPageServer : Nat → PageResult := fun _ => .page []

/-- Unsorted two-page catalog: the old album comes first, the new album is
on the second page. -/
def c1Pages : List (List Album) := [[albOld], [albNew]]

/-- The same two pages in the descending order the endpoint promises. -/
def c1SortedPages : List (List Album) := [[albNew], [albOld]]

/-- A server that serves one good page and then reports an API failure. -/
def c5Server : Nat → PageResult :=
  fun o => if o = 0 then .page [albNew] else .apiError

/-- A server that serves one good page and then fails at transport level. -/
def c5wServer : Nat → PageResult :=
  fun o => if o = 0 then .page [albNew] else .transportFail

/-- A server all of whose pages end in an album with an unparseable
creation timestamp. -/
def badTailServer : Nat → PageResult := fun _ => .page [albBad]

/-- A server that answers every offset with the same page holding only the
old album. -/
def oldPageServer : Nat → PageResult := fun _ => .page [albOld]

/-! Branch lemmas for `getNewAlbumsLoop`, one per exit of the Python loop. -/

theorem getNewAlbumsLoop_apiError {parse server cutoff offset acc}
    (h : server offset = PageResult.apiError) :
    getNewAlbumsLoop parse server cutoff offset acc = .error () := by
  rw [getNewAlbumsLoop.eq_def, h]

theorem getNewAlbumsLoop_transportFail {parse server cutoff offset acc}
    (h : server offset = PageResult.transportFail) :
    getNewAlbumsLoop parse server cutoff offset acc = .ok (acc, .noPage, 1) := by
  rw [getNewAlbumsLoop.eq_def, h]

theorem getNewAlbumsLoop_noList {parse server cutoff offset acc}
    (h : server offset = PageResult.noList) :
    getNewAlbumsLoop parse server cutoff offset acc = .ok (acc, .noPage, 1) := by
  rw [getNewAlbumsLoop.eq_def, h]

theorem getNewAlbumsLoop_emptyPage {parse server cutoff offset acc}
    (h : server offset = PageResult.page []) :
    getNewAlbumsLoop parse server cutoff offset acc = .ok (acc, .emptyPage, 1) := by
  rw [getNewAlbumsLoop.eq_def, h]
  simp

theorem getNewAlbumsLoop_earlyStop {parse server cutoff offset acc} {P : List Album}
    (h : server offset = PageResult.page P) (hne : P.isEmpty = false)
    (hstop : earlyStopHit parse cutoff P = true) :
    getNewAlbumsLoop parse server cutoff offset acc =
      .ok (acc ++ P.filter (albumIsNew parse cutoff), .earlyStop, 1) := by
  rw [getNewAlbumsLoop.eq_def, h]
  simp [hne, hstop]

theorem getNewAlbumsLoop_cap {parse server cutoff offset acc} {P : List Album}
    (h : server offset = PageResult.page P) (hne : P.isEmpty = false)
    (hstop : earlyStopHit parse cutoff P = false) (hcap : offset + 50 > 10000) :
    getNewAlbumsLoop parse server cutoff offset acc =
      .ok (acc ++ P.filter (albumIsNew parse cutoff), .safetyCap, 1) := by
  rw [getNewAlbumsLoop.eq_def, h]
  simp [hne, hstop, hcap]

theorem getNewAlbumsLoop_step {parse server cutoff offset acc} {P : List Album}
    (h : server offset = PageResult.page P) (hne : P.isEmpty = false)
    (hstop : earlyStopHit parse cutoff P = false) (hcap : offset + 50 ≤ 10000) :
    getNewAlbumsLoop parse server cutoff offset acc =
      bump (getNewAlbumsLoop parse server cutoff (offset + 50)
        (acc ++ P.filter (albumIsNew parse cutoff))) := by
  rw [getNewAlbumsLoop.eq_def, h]
  simp only [hne, hstop, Bool.false_eq_true, if_false]
  rw [dif_neg (by omega)]

theorem bumpN_error (n : Nat) : bumpN n (.error ()) = .error () := by
  induction n with
  | zero => rfl
  | succ n ih => simp [bumpN, ih, bump]

theorem bumpN_ok (n : Nat) (l : List Album) (r : StopReason) (c : Nat) :
    bumpN n (.ok (l, r, c)) = .ok (l, r, c + n) := by
  induction n with
  | zero => rfl
  | succ n ih => simp [bumpN, ih, bump]; omega

/-- Running the loop across `m` uneventful pages: if pages `i ≤ j < i + m`
(at offsets `50 * j`) are nonempty, do not trigger the early stop and stay
under the offset cap, the loop from offset `50 * i` reaches offset
`50 * (i + m)` having appended the filtered pages and made `m` requests. -/
theorem getNewAlbumsLoop_run_aux (parse : String → Option Int)
    (server : Nat → PageResult) (cutoff : Int) (P : Nat → List Album) :
    ∀ (m i : Nat) (acc : List Album), i + m ≤ 200 →
    (∀ j, i ≤ j → j < i + m → server (50 * j) = .page (P j)
      ∧ (P j).isEmpty = false ∧ earlyStopHit parse cutoff (P j) = false) →
    getNewAlbumsLoop parse server cutoff (50 * i) acc =
      bumpN m (getNewAlbumsLoop parse server cutoff (50 * (i + m))
        (acc ++ ((List.range' i m).map
          (fun j => (P j).filter (albumIsNew parse cutoff))).flatten)) := by
  intro m
  induction m with
  | zero =>
    intro i acc _ _
    simp [bumpN]
  | succ m ih =>
    intro i acc hle hcond
    obtain ⟨hp, hne, hstop⟩ := hcond i le_rfl (by omega)
    rw [getNewAlbumsLoop_step hp hne hstop (by omega)]
    have h50 : 50 * i + 50 = 50 * (i + 1) := by ring
    rw [h50, ih (i + 1) (acc ++ (P i).filter (albumIsNew parse cutoff)) (by omega)
      (fun j h1 h2 => hcond j (by omega) (by omega))]
    have harr : i + 1 + m = i + (m + 1) := by omega
    rw [List.range'_succ i m 1]
    simp only [List.map_cons, List.flatten_cons, harr, List.append_assoc]
    rfl

/-- When the server never raises an API error, `get_new_albums` always runs
to completion and returns a list, having made at least one request. -/
theorem getNewAlbumsLoop_ok_of_no_apiError (parse : String → Option Int)
    (server : Nat → PageResult) (cutoff : Int)
    (hapi : ∀ o, server o ≠ PageResult.apiError) :
    ∀ offset acc, ∃ l r n,
      getNewAlbumsLoop parse server cutoff offset acc = .ok (l, r, n) ∧ 1 ≤ n := by
  have main : ∀ gas offset acc, 10001 - offset ≤ gas →
      ∃ l r n, getNewAlbumsLoop parse server cutoff offset acc = .ok (l, r, n)
        ∧ 1 ≤ n := by
    intro gas
    induction gas with
    | zero =>
      intro offset acc hgas
      cases hs : server offset with
      | apiError => exact absurd hs (hapi offset)
      | transportFail =>
        exact ⟨acc, .noPage, 1, getNewAlbumsLoop_transportFail hs, le_rfl⟩
      | noList => exact ⟨acc, .noPage, 1, getNewAlbumsLoop_noList hs, le_rfl⟩
      | page P =>
        by_cases hne : P.isEmpty
        · have hP : P = [] := by simpa [List.isEmpty_iff] using hne
          subst hP
          exact ⟨acc, .emptyPage, 1, getNewAlbumsLoop_emptyPage hs, le_rfl⟩
        · by_cases hstop : earlyStopHit parse cutoff P
          · exact ⟨_, _, 1, getNewAlbumsLoop_earlyStop hs (by simpa using hne)
              hstop, le_rfl⟩
          · exact ⟨_, _, 1, getNewAlbumsLoop_cap hs (by simpa using hne)
              (by simpa using hstop) (by omega), le_rfl⟩
    | succ gas ih =>
      intro offset acc hgas
      cases hs : server offset with
      | apiError => exact absurd hs (hapi offset)
      | transportFail =>
        exact ⟨acc, .noPage, 1, getNewAlbumsLoop_transportFail hs, le_rfl⟩
      | noList => exact ⟨acc, .noPage, 1, getNewAlbumsLoop_noList hs, le_rfl⟩
      | page P =>
        by_cases hne : P.isEmpty
        · have hP : P = [] := by simpa [List.isEmpty_iff] using hne
          subst hP
          exact ⟨acc, .emptyPage, 1, getNewAlbumsLoop_emptyPage hs, le_rfl⟩
        · by_cases hstop : earlyStopHit parse cutoff P
          · exact ⟨_, _, 1, getNewAlbumsLoop_earlyStop hs (by simpa using hne)
              hstop, le_rfl⟩
          · by_cases hcap : offset + 50 > 10000
            · exact ⟨_, _, 1, getNewAlbumsLoop_cap hs (by simpa using hne)
                (by simpa using hstop) hcap, le_rfl⟩
            · obtain ⟨l, r, n, hl, hn⟩ :=
                ih (offset + 50) (acc ++ P.filter (albumIsNew parse cutoff))
                  (by omega)
              refine ⟨l, r, n + 1, ?_, by omega⟩
              rw [getNewAlbumsLoop_step hs (by simpa using hne)
                (by simpa using hstop) (by omega), hl]
              rfl
  intro offset acc
  exact main 10001 offset acc (by omega)

/-- Request-count bound for the windowed loop: starting under the cap, a
normal outcome at offset `o` with `n` requests satisfies
`50 * n + o ≤ 10050`; the loop can never run past the safety cap. -/
theorem getNewAlbumsLoop_count_le (parse : String → Option Int)
    (server : Nat → PageResult) (cutoff : Int) :
    ∀ offset acc l r n, offset ≤ 10000 →
      getNewAlbumsLoop parse server cutoff offset acc = .ok (l, r, n) →
      50 * n + offset ≤ 10050 := by
  have main : ∀ gas offset acc l r n, offset ≤ 10000 → 10001 - offset ≤ gas →
      getNewAlbumsLoop parse server cutoff offset acc = .ok (l, r, n) →
      50 * n + offset ≤ 10050 := by
    intro gas
    induction gas with
    | zero => intro offset acc l r n hoff hgas _; omega
    | succ gas ih =>
      intro offset acc l r n hoff hgas hres
      cases hs : server offset with
      | apiError => rw [getNewAlbumsLoop_apiError hs] at hres; exact absurd hres (by simp)
      | transportFail =>
        rw [getNewAlbumsLoop_transportFail hs] at hres
        obtain ⟨-, -, hn⟩ := Prod.mk.injEq .. ▸ Except.ok.injEq .. ▸ hres
        simp_all
        omega
      | noList =>
        rw [getNewAlbumsLoop_noList hs] at hres
        simp only [Except.ok.injEq, Prod.mk.injEq] at hres
        omega
      | page P =>
        by_cases hne : P.isEmpty
        · have hP : P = [] := by simpa [List.isEmpty_iff] using hne
          subst hP
          rw [getNewAlbumsLoop_emptyPage hs] at hres
          simp only [Except.ok.injEq, Prod.mk.injEq] at hres
          omega
        · by_cases hstop : earlyStopHit parse cutoff P
          · rw [getNewAlbumsLoop_earlyStop hs (by simpa using hne) hstop] at hres
            simp only [Except.ok.injEq, Prod.mk.injEq] at hres
            omega
          · by_cases hcap : offset + 50 > 10000
            · rw [getNewAlbumsLoop_cap hs (by simpa using hne)
                (by simpa using hstop) hcap] at hres
              simp only [Except.ok.injEq, Prod.mk.injEq] at hres
              omega
            · rw [getNewAlbumsLoop_step hs (by simpa using hne)
                (by simpa using hstop) (by omega)] at hres
              cases hinner : getNewAlbumsLoop parse server cutoff (offset + 50)
                  (acc ++ P.filter (albumIsNew parse cutoff)) with
              | error e => rw [hinner] at hres; exact absurd hres (by simp [bump])
              | ok v =>
                obtain ⟨l', r', n'⟩ := v
                rw [hinner] at hres
                simp only [bump, Except.ok.injEq, Prod.mk.injEq] at hres
                obtain ⟨h1, h2, h3⟩ := hres
                have := ih (offset + 50)
                  (acc ++ P.filter (albumIsNew parse cutoff)) l' r' n'
                  (by omega) (by omega) hinner
                omega
  intro offset acc l r n hoff
  exact main 10001 offset acc l r n hoff (by omega)

/-- Against a server that always answers with the same nonempty page,
`get_all_albums` never finishes, for any amount of fuel: the full-library
loop has no offset cap. -/
theorem getAllAlbumsLoop_everFull :
    ∀ (fuel offset : Nat) (acc : List Album),
      getAllAlbumsLoop everFullServer offset acc fuel = none := by
  intro fuel
  induction fuel with
  | zero => intro offset acc; rfl
  | succ fuel ih =>
    intro offset acc
    simp [getAllAlbumsLoop, everFullServer, albNew, ih]

/-- A completed full-library traversal made at least one request. -/
theorem getAllAlbumsLoop_count_pos (server : Nat → PageResult) :
    ∀ (fuel offset : Nat) (acc l : List Album) (n : Nat),
      getAllAlbumsLoop server offset acc fuel = some (.ok (l, n)) → 1 ≤ n := by
  intro fuel
  induction fuel with
  | zero => intro offset acc l n h; exact absurd h (by simp [getAllAlbumsLoop])
  | succ fuel ih =>
    intro offset acc l n h
    rw [getAllAlbumsLoop] at h
    cases hs : server offset with
    | apiError => rw [hs] at h; exact absurd h (by simp)
    | transportFail =>
      rw [hs] at h
      simp only [Option.some.injEq, Except.ok.injEq, Prod.mk.injEq] at h
      omega
    | noList =>
      rw [hs] at h
      simp only [Option.some.injEq, Except.ok.injEq, Prod.mk.injEq] at h
      omega
    | page P =>
      rw [hs] at h
      dsimp only at h
      by_cases hne : P.isEmpty
      · rw [if_pos hne] at h
        simp only [Option.some.injEq, Except.ok.injEq, Prod.mk.injEq] at h
        omega
      · rw [if_neg hne] at h
        cases hinner : getAllAlbumsLoop server (offset + 500) (acc ++ P) fuel with
        | none => rw [hinner] at h; exact absurd h (by simp)
        | some v =>
          cases v with
          | error e => rw [hinner] at h; exact absurd h (by simp)
          | ok w =>
            obtain ⟨l', n'⟩ := w
            rw [hinner] at h
            simp only [Option.some.injEq, Except.ok.injEq, Prod.mk.injEq] at h
            omega

/-- A fresh, readable cache yields its stored list. -/
theorem loadCache_fresh {now : Int} {cf : CacheFile} {l : List Album}
    (h : now - cf.mtime < 23 * 3600) (hc : cf.content = some l) :
    loadCache now true (some cf) = l := by
  unfold loadCache
  dsimp only
  rw [if_pos rfl, if_pos h, hc]

/-- A query answered from a nonempty loaded snapshot: filter it, leave the
filesystem untouched, make no request. -/
theorem getAnniversaryAlbums_cached {server : Nat → PageResult} {fuel : Nat}
    {now day month : Int} {fs : Option CacheFile} {l : List Album}
    (hload : loadCache now true fs = l) (hne : l.isEmpty = false) :
    getAnniversaryAlbums server fuel now day month true fs =
      some (.ok (l.filter (matchesAnniversary day month), fs, 0)) := by
  unfold getAnniversaryAlbums
  rw [hload]
  dsimp only
  rw [hne]
  simp

/-- A query whose cache-load step came back empty refreshes from the
server. -/
theorem getAnniversaryAlbums_refresh {server : Nat → PageResult} {fuel : Nat}
    {now day month : Int} {useCache : Bool} {fs : Option CacheFile}
    (hload : loadCache now useCache fs = []) :
    getAnniversaryAlbums server fuel now day month useCache fs =
      (match getAllAlbums server fuel with
        | none => none
        | some (.error _) => some (.error ())
        | some (.ok (albums, n)) =>
          some (.ok (albums.filter (matchesAnniversary day month),
            some ⟨now, some albums⟩, n))) := by
  unfold getAnniversaryAlbums
  rw [hload]
  rfl

/-- C10: for every anniversary query and every album whose resolved
release-date value stringifies to fewer than 10 characters (a year-only
`1994`, a year-month `1994-03`, ...), `get_anniversary_albums` silently
excludes the album: the `len(str(release_date)) >= 10` guard at line 208
fails, so no date is parsed and no match is possible. -/
theorem c10_short_release_date_excluded (day month : Int) (a : Album)
    (v : ReleaseVal) (hres : resolveReleaseDate a = some v)
    (hlen : strLen (pyStr v) < 10) :
    matchesAnniversary day month a = false := by
  unfold matchesAnniversary
  rw [hres]
  dsimp only
  by_cases ht : truthy v
  · rw [if_pos ht, if_neg (by omega)]
  · rw [if_neg ht]

/-- C10 witness: the year-only album `albShort` is excluded from the
(1 January) query. -/
theorem c10_witness : matchesAnniversary 1 1 albShort = false :=
  c10_short_release_date_excluded 1 1 albShort (.s "1994") rfl (by decide)

/-- C3 counterexample: an album whose `releaseDate` key is present but holds
the empty string, while its `date` key holds `1994-03-15`.  The claimed
fall-through would resolve the `date` field and match the (15 March) query
(third conjunct: with `releaseDate` absent the album does match), but the
code resolves the present-but-empty `releaseDate` (first conjunct) and
excludes the album (second conjunct). -/
theorem c3_counterexample :
    resolveReleaseDate albEmptyFirst = some (.s "") ∧
    matchesAnniversary 15 3 albEmptyFirst = false ∧
    matchesAnniversary 15 3 { albEmptyFirst with releaseDate := none } = true := by
  exact ⟨rfl, rfl, by decide⟩

/-- C3 amended: the release date is resolved by checking `releaseDate`,
`date`, `originalDate` in that fixed priority order, and the first PRESENT
key wins — presence, not non-emptiness.  If the first present field is
falsy (e.g. the empty string) the album is excluded outright; the
resolution never falls through to a later field. -/
theorem c3_amended (day month : Int) (a : Album) (v : ReleaseVal) :
    (a.releaseDate = some v → resolveReleaseDate a = some v) ∧
    (a.releaseDate = none → a.date = some v → resolveReleaseDate a = some v) ∧
    (a.releaseDate = none → a.date = none →
      resolveReleaseDate a = a.originalDate) ∧
    (a.releaseDate = some v → truthy v = false →
      matchesAnniversary day month a = false) := by
  refine ⟨fun h => by unfold resolveReleaseDate; rw [h],
    fun h1 h2 => by unfold resolveReleaseDate; rw [h1, h2],
    fun h1 h2 => by unfold resolveReleaseDate; rw [h1, h2],
    fun h1 h2 => ?_⟩
  unfold matchesAnniversary resolveReleaseDate
  rw [h1]
  simp [h2]

/-- C3 amended witness: instantiated at the album whose first present
release-date field is empty. -/
theorem c3_amended_witness : matchesAnniversary 15 3 albEmptyFirst = false :=
  (c3_amended 15 3 albEmptyFirst (.s "")).2.2.2 rfl rfl

/-- C2 counterexample: the scalar string `1994-03-15` matches the
(15 March) query but the structured mapping `{year: 1994, month: 3, day: 15}`
does not: line 209 parses `str(release_date)[:10]`, and for a mapping that
prefix is `{'year': 1`, which `fromisoformat` rejects. -/
theorem c2_counterexample :
    matchesAnniversary 15 3 albAnniv = true ∧
    matchesAnniversary 15 3 albAnnivMap = false := by
  exact ⟨by decide, by decide⟩

/-- C2 amended: only the scalar-string encoding is matched.  An album with
`releaseDate = "1994-03-15"` matches the (15 March) query, while the album
carrying the structured mapping encoding of the very same date matches no
query at all, because the string form of a mapping never parses as a date. -/
theorem c2_amended :
    matchesAnniversary 15 3 albAnniv = true ∧
    (∀ day month : Int, matchesAnniversary day month albAnnivMap = false) :=
  ⟨by decide, fun _ _ => rfl⟩

/-- C4 counterexample: a server that always returns a nonempty page.  Under
the claimed `maxOffsetCap` discipline the full-library traversal would stop
after 21 pages of size 500 (offsets 0..10000); with fuel for 1000
iterations it is still running, so it did not terminate when the offset
passed the cap. -/
theorem c4_counterexample : getAllAlbums everFullServer 1000 = none :=
  getAllAlbumsLoop_everFull 1000 0 []

/-- C4 amended: `get_all_albums` applies NO offset-cap safety discipline.
Against a server that never returns an empty page the traversal never
terminates, for any amount of fuel; it terminates (immediately, with one
request) once a page comes back empty. -/
theorem c4_amended :
    (∀ fuel, getAllAlbums everFullServer fuel = none) ∧
    (∀ fuel, getAllAlbums emptyPageServer (fuel + 1) = some (.ok ([], 1))) := by
  constructor
  · intro fuel
    exact getAllAlbumsLoop_everFull fuel 0 []
  · intro fuel
    simp [getAllAlbums, getAllAlbumsLoop, emptyPageServer]

/-- C7 counterexample: the cache snapshot is fresh (written at instant 0,
queried at instant 0, TTL 23 h) but holds the empty album list, and the
server's catalog is empty.  The query performs 1 full-catalog request — not
0 — and leaves the cache state unchanged, so the second of two consecutive
calls is the very same computation and again performs 1 request, refuting
that a call made while the snapshot is fresh is answered entirely from the
snapshot. -/
theorem c7_counterexample :
    getAnniversaryAlbums emptyPageServer 5 0 15 3 true (some ⟨0, some []⟩) =
      some (.ok ([], some ⟨0, some []⟩, 1)) ∧ (1 : Nat) ≠ 0 := by
  exact ⟨rfl, by decide⟩

/-- C7 amended: two `query(day, month)` calls made while the cache snapshot
is fresh, readable and NONEMPTY produce identical result sets, leave the
snapshot untouched, and each perform zero full-catalog network calls (in
particular the second call is answered entirely from the snapshot). -/
theorem c7_amended (server : Nat → PageResult) (fuel : Nat)
    (t1 t2 day month : Int) (cf : CacheFile) (l : List Album)
    (hc : cf.content = some l) (hne : l.isEmpty = false)
    (h1 : t1 - cf.mtime < 23 * 3600) (h2 : t2 - cf.mtime < 23 * 3600) :
    getAnniversaryAlbums server fuel t1 day month true (some cf) =
      some (.ok (l.filter (matchesAnniversary day month), some cf, 0)) ∧
    getAnniversaryAlbums server fuel t2 day month true (some cf) =
      some (.ok (l.filter (matchesAnniversary day month), some cf, 0)) := by
  exact ⟨getAnniversaryAlbums_cached (loadCache_fresh h1 hc) hne,
    getAnniversaryAlbums_cached (loadCache_fresh h2 hc) hne⟩

/-- C7 amended witness: a fresh one-album snapshot queried at instants 0 and
1000. -/
theorem c7_amended_witness :
    getAnniversaryAlbums emptyPageServer 3 0 15 3 true
        (some ⟨0, some [albAnniv]⟩) =
      some (.ok ([albAnniv].filter (matchesAnniversary 15 3),
        some ⟨0, some [albAnniv]⟩, 0)) ∧
    getAnniversaryAlbums emptyPageServer 3 1000 15 3 true
        (some ⟨0, some [albAnniv]⟩) =
      some (.ok ([albAnniv].filter (matchesAnniversary 15 3),
        some ⟨0, some [albAnniv]⟩, 0)) :=
  c7_amended emptyPageServer 3 0 1000 15 3 ⟨0, some [albAnniv]⟩ [albAnniv]
    rfl rfl (by norm_num) (by norm_num)

/-- C9: a cache file that exists, is fresh and loads successfully but holds
the empty album list is treated exactly like a missing cache: the query is
the same computation as with no cache file at all (first conjunct), and any
successful outcome rewrote the snapshot with a freshly synced catalog,
stamped at the query instant, having made at least one full-catalog request
(second conjunct). -/
theorem c9_fresh_empty_cache (server : Nat → PageResult) (fuel : Nat)
    (now day month : Int) (cf : CacheFile)
    (hfresh : now - cf.mtime < 23 * 3600) (hc : cf.content = some []) :
    getAnniversaryAlbums server fuel now day month true (some cf) =
      getAnniversaryAlbums server fuel now day month true none ∧
    (∀ res fs' n,
      getAnniversaryAlbums server fuel now day month true (some cf)
        = some (.ok (res, fs', n)) →
      ∃ albums, fs' = some ⟨now, some albums⟩
        ∧ res = albums.filter (matchesAnniversary day month) ∧ 1 ≤ n) := by
  have hload : loadCache now true (some cf) = [] := loadCache_fresh hfresh hc
  constructor
  · rw [getAnniversaryAlbums_refresh hload,
      getAnniversaryAlbums_refresh (rfl : loadCache now true none = [])]
  · intro res fs' n h
    rw [getAnniversaryAlbums_refresh hload] at h
    cases hall : getAllAlbums server fuel with
    | none => rw [hall] at h; exact absurd h (by simp)
    | some v =>
      cases v with
      | error e => rw [hall] at h; simp at h
      | ok w =>
        obtain ⟨albums, n'⟩ := w
        rw [hall] at h
        simp only [Option.some.injEq, Except.ok.injEq, Prod.mk.injEq] at h
        obtain ⟨h1, h2, h3⟩ := h
        exact ⟨albums, h2.symm, h1.symm,
          h3 ▸ getAllAlbumsLoop_count_pos server fuel 0 [] albums n' hall⟩

/-- C9 witness: fresh-but-empty snapshot over the empty catalog. -/
theorem c9_witness :
    getAnniversaryAlbums emptyPageServer 3 0 15 3 true (some ⟨0, some []⟩) =
      getAnniversaryAlbums emptyPageServer 3 0 15 3 true none :=
  (c9_fresh_empty_cache emptyPageServer 3 0 15 3 ⟨0, some []⟩ (by norm_num)
    rfl).1

/-- Splitting the last page off a flattened prefix of filtered pages. -/
theorem flatten_map_range'_concat (f : Nat → List Album) (k : Nat) :
    ((List.range' 0 (k + 1)).map f).flatten =
      ((List.range' 0 k).map f).flatten ++ f k := by
  rw [List.range'_concat]
  simp

/-- A batch whose last album has an unparseable (or missing/empty) creation
timestamp never triggers the early stop. -/
theorem earlyStopHit_eq_false_of_parse_fail {parse : String → Option Int}
    {cutoff : Int} {albums : List Album} {last : Album}
    (hl : albums.getLast? = some last)
    (hp : parsedCreated parse last = none) :
    earlyStopHit parse cutoff albums = false := by
  unfold earlyStopHit
  rw [hl]
  dsimp only
  rw [hp]

/-- C5 counterexample: page 0 of the windowed fetch succeeds and contributes
an album inside the window (third conjunct), the request at offset 50 comes
back as an envelope with status `failed`; `_request` raises (line 51),
nothing catches the exception inside `get_new_albums`, and the caller
receives the exception — the album collected from page 0 is lost, not
returned. -/
theorem c5_counterexample :
    getNewAlbums tParse c5Server 3600 1 = .error () ∧
    c5Server 0 = .page [albNew] ∧
    albumIsNew tParse (3600 - 1 * 3600) albNew = true := by
  refine ⟨?_, rfl, by decide⟩
  unfold getNewAlbums
  rw [getNewAlbumsLoop_step (show c5Server 0 = .page [albNew] from rfl)
    (by decide) (by decide) (by omega)]
  rw [getNewAlbumsLoop_apiError (show c5Server (0 + 50) = .apiError from rfl)]
  rfl

/-- C5 amended: partial results survive transport failures only.  If pages
`0..k-1` are served uneventfully and the request at page `k` fails at
transport level (`_request` returns `None`), the traversal stops and the
caller receives exactly the albums collected from the `k` pages fetched
before the failure.  If instead the envelope at page `k` reports
`status: failed`, `_request` raises and the caller receives the exception:
the collected albums are lost. -/
theorem c5_aborted_traversal (parse : String → Option Int)
    (server : Nat → PageResult) (now hours : Int) (P : Nat → List Album)
    (k : Nat) (hk : k ≤ 200)
    (hcond : ∀ j, j < k → server (50 * j) = .page (P j)
      ∧ (P j).isEmpty = false
      ∧ earlyStopHit parse (now - hours * 3600) (P j) = false) :
    (server (50 * k) = .transportFail →
      getNewAlbums parse server now hours =
        .ok (((List.range k).map (fun j =>
          (P j).filter (albumIsNew parse (now - hours * 3600)))).flatten,
          .noPage, k + 1)) ∧
    (server (50 * k) = .apiError →
      getNewAlbums parse server now hours = .error ()) := by
  have hrun := getNewAlbumsLoop_run_aux parse server (now - hours * 3600) P
    k 0 [] (by omega) (fun j h1 h2 => hcond j (by omega))
  simp only [Nat.mul_zero, Nat.zero_add, List.nil_append] at hrun
  constructor
  · intro hfail
    unfold getNewAlbums
    rw [hrun, getNewAlbumsLoop_transportFail hfail, bumpN_ok,
      List.range_eq_range', Nat.add_comm 1 k]
  · intro hfail
    unfold getNewAlbums
    rw [hrun, getNewAlbumsLoop_apiError hfail, bumpN_error]

/-- C5 witness: the two concrete failure modes at page 1 after one good
page. -/
theorem c5_witness :
    getNewAlbums tParse c5wServer 3600 1 =
      .ok (((List.range 1).map (fun j =>
        ((fun _ => [albNew]) j).filter
          (albumIsNew tParse (3600 - 1 * 3600)))).flatten,
        .noPage, 2) ∧
    getNewAlbums tParse c5Server 3600 1 = .error () := by
  constructor
  · exact (c5_aborted_traversal tParse c5wServer 3600 1 (fun _ => [albNew]) 1
      (by omega) (by decide)).1 (by decide)
  · exact (c5_aborted_traversal tParse c5Server 3600 1 (fun _ => [albNew]) 1
      (by omega) (by decide)).2 (by decide)

/-- C6: the early-stop boundary of `get_new_albums`.  First conjunct: if
pages `0..k-1` are uneventful and the last album of (nonempty) page `k`
parses to an instant strictly below the cutoff, the loop stops having
requested exactly the `k + 1` pages `0..k` — no further page is ever
fetched.  Second conjunct: if instead the last album of page `k` fails to
parse, the loop does NOT stop there: provided the safety cap leaves room
(`k < 200`) and the server raises no API error, the run completes normally
with at least `k + 2` requests, i.e. page `k + 1` was fetched. -/
theorem c6_early_stop_boundary (parse : String → Option Int)
    (server : Nat → PageResult) (now hours : Int) (P : Nat → List Album)
    (k : Nat) (hk : k ≤ 200)
    (hcond : ∀ j, j < k → server (50 * j) = .page (P j)
      ∧ (P j).isEmpty = false
      ∧ earlyStopHit parse (now - hours * 3600) (P j) = false)
    (hpk : server (50 * k) = .page (P k)) (hnek : (P k).isEmpty = false) :
    (earlyStopHit parse (now - hours * 3600) (P k) = true →
      getNewAlbums parse server now hours =
        .ok (((List.range (k + 1)).map (fun j =>
          (P j).filter (albumIsNew parse (now - hours * 3600)))).flatten,
          .earlyStop, k + 1)) ∧
    ((∃ last, (P k).getLast? = some last ∧ parsedCreated parse last = none) →
      k < 200 → (∀ o, server o ≠ PageResult.apiError) →
      ∃ l r n, getNewAlbums parse server now hours = .ok (l, r, n)
        ∧ k + 2 ≤ n) := by
  constructor
  · intro hstop
    have hrun := getNewAlbumsLoop_run_aux parse server (now - hours * 3600) P
      k 0 [] (by omega) (fun j h1 h2 => hcond j (by omega))
    simp only [Nat.mul_zero, Nat.zero_add, List.nil_append] at hrun
    unfold getNewAlbums
    rw [hrun, getNewAlbumsLoop_earlyStop hpk hnek hstop, bumpN_ok,
      List.range_eq_range', flatten_map_range'_concat, Nat.add_comm 1 k]
  · intro hex hklt hapi
    obtain ⟨last, hl, hp⟩ := hex
    have hstopk : earlyStopHit parse (now - hours * 3600) (P k) = false :=
      earlyStopHit_eq_false_of_parse_fail hl hp
    have hrun := getNewAlbumsLoop_run_aux parse server (now - hours * 3600) P
      (k + 1) 0 [] (by omega) (fun j h1 h2 => by
        rcases Nat.lt_succ_iff_lt_or_eq.mp (by omega : j < k + 1) with hj | hj
        · exact hcond j hj
        · subst hj; exact ⟨hpk, hnek, hstopk⟩)
    simp only [Nat.mul_zero, Nat.zero_add, List.nil_append] at hrun
    obtain ⟨l, r, n, hok, hn⟩ := getNewAlbumsLoop_ok_of_no_apiError parse
      server (now - hours * 3600) hapi (50 * (k + 1))
      (((List.range' 0 (k + 1)).map (fun j =>
        (P j).filter (albumIsNew parse (now - hours * 3600)))).flatten)
    refine ⟨l, r, n + (k + 1), ?_, by omega⟩
    unfold getNewAlbums
    rw [hrun, hok, bumpN_ok]

/-- C6 witness: with every page's last album older than the cutoff the loop
stops after the very first page (one request); with every page's last album
unparseable the loop keeps going past the first page (at least two
requests). -/
theorem c6_witness :
    getNewAlbums tParse oldPageServer 3650 1 =
      .ok (((List.range (0 + 1)).map (fun j =>
        ((fun _ => [albOld]) j).filter
          (albumIsNew tParse (3650 - 1 * 3600)))).flatten,
        .earlyStop, 0 + 1) ∧
    (∃ l r n, getNewAlbums tParse badTailServer 3650 1 = .ok (l, r, n)
      ∧ 0 + 2 ≤ n) := by
  constructor
  · exact (c6_early_stop_boundary tParse oldPageServer 3650 1
      (fun _ => [albOld]) 0 (by omega) (by decide) rfl (by decide)).1
      (by decide)
  · exact (c6_early_stop_boundary tParse badTailServer 3650 1
      (fun _ => [albBad]) 0 (by omega) (by decide) rfl (by decide)).2
      ⟨albBad, rfl, by decide⟩ (by omega) (fun o => by simp [badTailServer])

/-- C8: the safety cap of `get_new_albums`.  First conjunct: for EVERY
server behaviour, a completed windowed fetch made at most 201 page requests
(offsets 0, 50, ..., 10000) — the traversal always halts once the offset
passes the 10000 cap.  Second conjunct: against a server that answers every
polled offset with a nonempty page that never triggers the early stop, the
fetch ends through the cap branch — the one that logs the
`fetched over 10000 items` warning, a `StopReason` distinct from the
normal-termination reasons — after exactly 201 requests. -/
theorem c8_safety_cap (parse : String → Option Int)
    (server : Nat → PageResult) (now hours : Int) (P : Nat → List Album) :
    (∀ l r n, getNewAlbums parse server now hours = .ok (l, r, n) →
      n ≤ 201) ∧
    ((∀ j, j ≤ 200 → server (50 * j) = .page (P j)
        ∧ (P j).isEmpty = false
        ∧ earlyStopHit parse (now - hours * 3600) (P j) = false) →
      getNewAlbums parse server now hours =
        .ok (((List.range 201).map (fun j =>
          (P j).filter (albumIsNew parse (now - hours * 3600)))).flatten,
          .safetyCap, 201)) := by
  constructor
  · intro l r n h
    unfold getNewAlbums at h
    have := getNewAlbumsLoop_count_le parse server (now - hours * 3600)
      0 [] l r n (by omega) h
    omega
  · intro hcond
    have hrun := getNewAlbumsLoop_run_aux parse server (now - hours * 3600) P
      200 0 [] (by omega) (fun j h1 h2 => hcond j (by omega))
    simp only [Nat.mul_zero, Nat.zero_add, List.nil_append] at hrun
    obtain ⟨hp, hne, hstop⟩ := hcond 200 le_rfl
    unfold getNewAlbums
    rw [hrun, getNewAlbumsLoop_cap hp hne hstop (by omega), bumpN_ok,
      List.range_eq_range']
    have h201 : (201 : Nat) = 200 + 1 := rfl
    rw [h201]
    conv_rhs => rw [flatten_map_range'_concat]

/-- C8 witness: the adversarial always-full server is cut off after 201
pages with the warning-logging stop reason. -/
theorem c8_witness :
    getNewAlbums tParse everFullServer 3600 1 =
      .ok (((List.range 201).map (fun j =>
        ((fun _ => [albNew]) j).filter
          (albumIsNew tParse (3600 - 1 * 3600)))).flatten,
        .safetyCap, 201) :=
  (c8_safety_cap tParse everFullServer 3600 1 (fun _ => [albNew])).2
    (by decide)

/-- Offsets past the backing page list are answered with an empty page. -/
theorem serverOfPages_past {pages : List (List Album)} {i : Nat}
    (hge : pages.length ≤ i) : serverOfPages 50 pages (50 * i) = .page [] := by
  unfold serverOfPages
  rw [Nat.mul_div_cancel_left i (by norm_num), List.getElem?_eq_none hge]

/-- Offsets inside the backing page list are answered with the page at the
corresponding index. -/
theorem serverOfPages_at {pages : List (List Album)} {i : Nat}
    (hi : i < pages.length) :
    serverOfPages 50 pages (50 * i) = .page (pages.get ⟨i, hi⟩) := by
  unfold serverOfPages
  rw [Nat.mul_div_cancel_left i (by norm_num), List.getElem?_eq_getElem hi]
  rfl

/-- What a triggered early stop says about the batch: its last album's
timestamp parses to an instant strictly below the cutoff. -/
theorem earlyStopHit_spec {parse : String → Option Int} {cutoff : Int}
    {albums : List Album} (h : earlyStopHit parse cutoff albums = true) :
    ∃ last t, albums.getLast? = some last
      ∧ parsedCreated parse last = some t ∧ t < cutoff := by
  unfold earlyStopHit at h
  cases hl : albums.getLast? with
  | none => rw [hl] at h; exact absurd h (by simp)
  | some last =>
    rw [hl] at h
    dsimp only at h
    cases hp : parsedCreated parse last with
    | none => rw [hp] at h; simp at h
    | some t =>
      rw [hp] at h
      simp only [decide_eq_true_eq] at h
      exact ⟨last, t, rfl, hp, h⟩

/-- The windowed loop over a catalog served from a page list that honours
the descending-creation-time contract: starting at page `i` the loop
returns exactly the strictly-newer-than-cutoff albums of pages `i` and
later, whether it ends by exhausting the catalog or by the early stop. -/
theorem getNewAlbumsLoop_sorted (parse : String → Option Int) (cutoff : Int)
    (pages : List (List Album)) (hlen : pages.length ≤ 200)
    (hne : ∀ p ∈ pages, p.isEmpty = false)
    (hsort : ∀ (i j : Nat) (hi : i < pages.length) (hj : j < pages.length),
      i < j → ∀ a ∈ pages.get ⟨i, hi⟩, ∀ b ∈ pages.get ⟨j, hj⟩, ∀ ta tb,
        parsedCreated parse a = some ta → parsedCreated parse b = some tb →
        tb ≤ ta) :
    ∀ (m i : Nat) (acc : List Album), pages.length ≤ i + m →
      ∃ r n, getNewAlbumsLoop parse (serverOfPages 50 pages) cutoff (50 * i)
          acc =
        .ok (acc ++ ((pages.drop i).flatten).filter (albumIsNew parse cutoff),
          r, n) := by
  intro m
  induction m with
  | zero =>
    intro i acc hge
    have hi : pages.length ≤ i := by omega
    rw [getNewAlbumsLoop_emptyPage (serverOfPages_past hi),
      List.drop_eq_nil_of_le hi]
    exact ⟨.emptyPage, 1, by simp⟩
  | succ m ih =>
    intro i acc hge
    by_cases hi : pages.length ≤ i
    · rw [getNewAlbumsLoop_emptyPage (serverOfPages_past hi),
        List.drop_eq_nil_of_le hi]
      exact ⟨.emptyPage, 1, by simp⟩
    · push_neg at hi
      have hsv := serverOfPages_at hi
      have hneP : (pages.get ⟨i, hi⟩).isEmpty = false :=
        hne (pages.get ⟨i, hi⟩) (List.get_mem pages i hi)
      have hdrop : pages.drop i = pages.get ⟨i, hi⟩ :: pages.drop (i + 1) :=
        List.drop_eq_getElem_cons hi
      by_cases hstop : earlyStopHit parse cutoff (pages.get ⟨i, hi⟩)
      · obtain ⟨last, tl, hlast, hptl, htl⟩ := earlyStopHit_spec hstop
        have hlastMem : last ∈ pages.get ⟨i, hi⟩ :=
          List.mem_of_mem_getLast? hlast
        have hnil : ((pages.drop (i + 1)).flatten).filter
            (albumIsNew parse cutoff) = [] := by
          rw [List.filter_eq_nil_iff]
          intro b hb
          rw [List.mem_flatten] at hb
          obtain ⟨s, hs, hbs⟩ := hb
          rw [List.mem_iff_getElem] at hs
          obtain ⟨t, ht, hst⟩ := hs
          have hjlt : i + 1 + t < pages.length := by
            have := List.length_drop (i + 1) pages
            omega
          have hbmem : b ∈ pages.get ⟨i + 1 + t, hjlt⟩ := by
            have hgd : (pages.drop (i + 1))[t] = pages[i + 1 + t] :=
              List.getElem_drop pages
            rw [hgd] at hst
            rw [← hst] at hbs
            exact hbs
          unfold albumIsNew
          cases hpb : parsedCreated parse b with
          | none => simp
          | some tb =>
            have hle := hsort i (i + 1 + t) hi hjlt (by omega) last hlastMem
              b hbmem tl tb hptl hpb
            simp only [decide_eq_true_eq]
            omega
        rw [getNewAlbumsLoop_earlyStop hsv hneP hstop, hdrop]
        refine ⟨.earlyStop, 1, ?_⟩
        rw [List.flatten_cons, List.filter_append, hnil, List.append_nil]
      · rw [getNewAlbumsLoop_step hsv hneP (by simpa using hstop) (by omega)]
        have h50 : 50 * i + 50 = 50 * (i + 1) := by ring
        rw [h50]
        obtain ⟨r, n, hrec⟩ := ih (i + 1)
          (acc ++ (pages.get ⟨i, hi⟩).filter (albumIsNew parse cutoff))
          (by omega)
        rw [hrec, hdrop]
        refine ⟨r, n + 1, ?_⟩
        rw [List.flatten_cons, List.filter_append, ← List.append_assoc]
        rfl

/-- C1 counterexample: a two-page response in which the old album (created
at instant 0) is on page 0 and the new album (created at instant 100, well
inside the one-hour window ending at instant 3650, cutoff 50) is on page 1.
The early stop fires after page 0, so `get_new_albums` returns the empty
list after a single request, even though the new album is among the pages
the server returns (third conjunct) and passes the window test (second
conjunct). -/
theorem c1_counterexample :
    getNewAlbums tParse (serverOfPages 50 c1Pages) 3650 1 =
      .ok ([], .earlyStop, 1) ∧
    albumIsNew tParse (3650 - 1 * 3600) albNew = true ∧
    albNew ∈ c1Pages.flatten := by
  refine ⟨?_, by decide, by decide⟩
  unfold getNewAlbums
  rw [getNewAlbumsLoop_earlyStop
    (show serverOfPages 50 c1Pages 0 = .page [albOld] from rfl)
    (by decide) (by decide)]
  rfl

/-- C1 amended: when the served pages honour the descending-creation-time
contract (the documented assumption of the `newest` endpoint), contain no
empty page, and number at most 200 (so the safety cap cannot truncate),
`get_new_albums` returns exactly the albums of the catalog whose creation
timestamp parses and is strictly greater than the cutoff `now - W`, in
catalog order: albums whose timestamp fails to parse are excluded, and an
album whose timestamp equals the cutoff exactly is excluded (the filter is
`cutoff < t`).  Without the sort assumption the early stop can discard
in-window albums (see the counterexample). -/
theorem c1_windowed_filter_exact (parse : String → Option Int)
    (now hours : Int) (pages : List (List Album))
    (hlen : pages.length ≤ 200)
    (hne : ∀ p ∈ pages, p.isEmpty = false)
    (hsort : ∀ (i j : Nat) (hi : i < pages.length) (hj : j < pages.length),
      i < j → ∀ a ∈ pages.get ⟨i, hi⟩, ∀ b ∈ pages.get ⟨j, hj⟩, ∀ ta tb,
        parsedCreated parse a = some ta → parsedCreated parse b = some tb →
        tb ≤ ta) :
    ∃ r n, getNewAlbums parse (serverOfPages 50 pages) now hours =
      .ok (pages.flatten.filter (albumIsNew parse (now - hours * 3600)),
        r, n) := by
  obtain ⟨r, n, h⟩ := getNewAlbumsLoop_sorted parse (now - hours * 3600)
    pages hlen hne hsort pages.length 0 [] (by omega)
  refine ⟨r, n, ?_⟩
  unfold getNewAlbums
  simpa using h

/-- C1 witness: the same two albums served in the contract's descending
order are filtered exactly: the new album is returned, the old one is not,
the boundary is strict. -/
theorem c1_witness :
    ∃ r n, getNewAlbums tParse (serverOfPages 50 c1SortedPages) 3650 1 =
      .ok (c1SortedPages.flatten.filter
        (albumIsNew tParse (3650 - 1 * 3600)), r, n) := by
  refine c1_windowed_filter_exact tParse 3650 1 c1SortedPages (by decide)
    (by decide) ?_
  intro i j hi hj hij a ha b hb ta tb hta htb
  have h2 : c1SortedPages.length = 2 := rfl
  rw [h2] at hi hj
  interval_cases i <;> interval_cases j <;> simp_all [c1SortedPages,
    parsedCreated, tParse, normZ, endsWithZ, albNew, albOld]
  omega

end Alpargatify
